import Mathlib

/-!
Shallow embedding of `scripts/create-stats-csv.py` (thermal.rs repository):
a pipeline that turns per-image pixel-statistics accumulators into a CSV
report, optionally enriched with geolocation parsed from sexagesimal EXIF
strings and projected planar coordinates.

Numbers are modelled by `ℚ` (exact arithmetic standing for the host floats);
Python exceptions by an explicit `PyError`; Python's `**` on a negative base
with exponent `0.5` (which yields a `complex`, not an exception) by the
`StdRes` type.  File reads and the pyproj transformer are environment
parameters.
-/

deriving instance DecidableEq for Except

namespace ThermalStats


/-- The Python exception classes the script can raise. -/
inductive PyError
  | zeroDivisionError
  | indexError
  | keyError
  | valueError
  | fileNotFoundError
  deriving DecidableEq, Repr

/-- Result of Python `v ** 0.5` on a real `v`: a real `sqrt v` when `0 ≤ v`,
otherwise a complex number (Python 3 falls back to complex power; no
exception).  The radicand is carried so the value is exactly recoverable. -/
inductive StdRes
  | real (radicand : ℚ)
  | complex (radicand : ℚ)
  deriving DecidableEq, Repr

/-- Python `v ** 0.5`. -/
def powHalf (v : ℚ) : StdRes :=
  if 0 ≤ v then .real v else .complex v

/-- The real value a `StdRes` denotes: `none` when the Python result was a
complex number, i.e. not a real at all. -/
noncomputable def StdRes.value : StdRes → Option ℝ
  | .real v => some (Real.sqrt v)
  | .complex _ => none

/-- Whether the Python value is a nonnegative real number (and not NaN):
true exactly for the `real` branch, whose value `sqrt v` is `≥ 0`. -/
def StdRes.isNonnegReal : StdRes → Bool
  | .real _ => true
  | .complex _ => false

/-- The raw statistics dict `{count, sum, sum_2, min, max}` fed to
`normalize_stats`. -/
structure Accumulator where
  count : ℕ
  sum : ℚ
  sum_2 : ℚ
  min : ℚ
  max : ℚ
  deriving DecidableEq, Repr

/-- The dict after `normalize_stats` ran: the original keys plus the derived
`mean` and `std_dev`. -/
structure NormalizedStats where
  count : ℕ
  sum : ℚ
  sum_2 : ℚ
  min : ℚ
  max : ℚ
  mean : ℚ
  std_dev : StdRes
  deriving DecidableEq, Repr

/-- Python `/` on numbers: raises `ZeroDivisionError` on a zero divisor. -/
def pyDiv (a b : ℚ) : Except PyError ℚ :=
  if b = 0 then .error .zeroDivisionError else .ok (a / b)

/-- Lines 22–28: `normalize_stats`.  `mean = sum / count`,
`var = sum_2 / count - mean * mean`, `std = var ** 0.5` — note the source
applies no clamp to `var` before the square root. -/
def normalize_stats (st : Accumulator) : Except PyError NormalizedStats := do
  let count := st.count
  let mean ← pyDiv st.sum (count : ℚ)
  let q ← pyDiv st.sum_2 (count : ℚ)
  let var := q - mean * mean
  let std := powHalf var
  return { count := st.count, sum := st.sum, sum_2 := st.sum_2,
           min := st.min, max := st.max, mean := mean, std_dev := std }

/-- A character the pattern `[^0-9.]` does NOT match: an ASCII digit or `.`. -/
def isNumChar (c : Char) : Bool :=
  c.isDigit || c == '.'

/-- `GPS_RE.split`, i.e. Python `re.split('[^0-9.]+', s)`: split on every
maximal run of non-digit-non-dot characters.  Like `re.split`, empty
fragments at the boundaries are KEPT (a leading separator run yields a
leading `""`, a trailing one a trailing `""`; `""` splits to `[""]`).
Implemented as a right fold whose state is the fragments built so far and
whether the character just to the right was a separator. -/
def pySplit (s : List Char) : List (List Char) :=
  (s.foldr
    (fun c st =>
      if isNumChar c then
        match st.1 with
        | f :: fs => ((c :: f) :: fs, false)
        | [] => ([[c]], false)
      else
        if st.2 then st else ([] :: st.1, true))
    ([[]], false)).1

/-- Value of a list of ASCII digits read in base 10 (`digitsVal [] = 0`). -/
def digitsVal (l : List Char) : ℕ :=
  l.foldl (fun n c => 10 * n + (c.toNat - 48)) 0

/-- Python `float(s)` restricted to the strings that can come out of
`pySplit`: only digits and dots.  `""`, `"."` and strings with two or more
dots raise `ValueError`; otherwise the decimal value is returned
(`float("5.") = 5`, `float(".5") = 1/2`). -/
def pyFloat (s : List Char) : Except PyError ℚ :=
  if s.isEmpty then .error .valueError
  else if s.any (fun c => !(isNumChar c)) then .error .valueError
  else
    let dots := s.count '.'
    if dots = 0 then .ok (digitsVal s)
    else if dots = 1 then
      let ip := s.takeWhile (fun c => c ≠ '.')
      let fp := (s.dropWhile (fun c => c ≠ '.')).tail
      if ip.isEmpty && fp.isEmpty then .error .valueError
      else .ok ((digitsVal ip : ℚ) + (digitsVal fp : ℚ) / 10 ^ fp.length)
    else .error .valueError

/-- Python list indexing `l[n]` for `n ≥ 0`: `IndexError` past the end. -/
def listGet {α : Type} : List α → ℕ → Except PyError α
  | [], _ => .error .indexError
  | a :: _, 0 => .ok a
  | _ :: l, n + 1 => listGet l n

/-- Python `s[-1]` on a string: its last character, `IndexError` when empty. -/
def strLast (s : List Char) : Except PyError Char :=
  match s.getLast? with
  | some c => .ok c
  | none => .error .indexError

/-- Lines 30–34: `degree_to_float`.  Split on `GPS_RE`, convert fragments 0,
1, 2 with `float` (Python's left-to-right order: index then convert, one
component at a time), combine as `d + m/60 + s/3600`, negate iff the final
character of the original string is `S` or `W`. -/
def degree_to_float (deg_str : String) : Except PyError ℚ := do
  let s := deg_str.toList
  let deg_comps := pySplit s
  let d0 ← pyFloat (← listGet deg_comps 0)
  let d1 ← pyFloat (← listGet deg_comps 1)
  let d2 ← pyFloat (← listGet deg_comps 2)
  let deg_float := d0 + d1 / 60 + d2 / 3600
  let c ← strLast s
  return (if c = 'S' ∨ c = 'W' then -deg_float else deg_float)

/-- Lines 16–19: the two command-line options, `--gps` (a flag) and `--epsg`
(an optional integer, `None` when not given). -/
structure Args where
  gps : Bool
  epsg : Option ℤ
  deriving DecidableEq, Repr

/-- One element of the input's `image_stats` array. -/
structure ImStat where
  path : String
  width : ℤ
  height : ℤ
  stats : Accumulator
  deriving DecidableEq, Repr

/-- The JSON document read from standard input. -/
structure StatsJson where
  image_stats : List ImStat
  cumulative : Accumulator
  deriving DecidableEq, Repr

/-- An EXIF metadata object; either GPS field may be missing from the JSON
(a lookup of a missing field raises `KeyError`). -/
structure ExifObj where
  gpsLatitude : Option String
  gpsLongitude : Option String
  deriving DecidableEq, Repr

/-- The metadata document: a single object or a list of objects (line 38
takes element 0 of a list). -/
inductive ExifDoc
  | obj (o : ExifObj)
  | arr (l : List ExifObj)
  deriving DecidableEq, Repr

/-- One row of the assembled DataFrame: the record's dict after all in-place
merges.  Optional fields model keys the dict may simply not have (the
cumulative row has no `width`/`height`; geolocation keys appear only when
set). -/
structure Row where
  path : String
  width : Option ℤ
  height : Option ℤ
  count : ℕ
  sum : ℚ
  sum_2 : ℚ
  min : ℚ
  max : ℚ
  mean : ℚ
  std_dev : StdRes
  latitude : Option ℚ
  longitude : Option ℚ
  easting : Option ℚ
  northing : Option ℚ
  deriving DecidableEq, Repr

/-- Python truthiness of `args.epsg` (an `Optional[int]`): `None` and `0`
are both falsy — line 54 tests `args.gps and args.epsg`. -/
def pyTruthy : Option ℤ → Bool
  | none => false
  | some n => n != 0

/-- Lines 36–46: `add_gps_coords`.  Reads the JSON document at
`stat['path']` (`fs` models the filesystem; a missing file raises
`FileNotFoundError`), takes element 0 when the document is a list
(`IndexError` on an empty list), looks up the two sexagesimal fields
(`KeyError` when absent), parses each with `degree_to_float`, stores
latitude and longitude on the row, and, when a transformer was constructed,
also stores the projected easting and northing. -/
def add_gps_coords (fs : String → Option ExifDoc) (stat : Row)
    (proj_t : Option (ℚ → ℚ → ℚ × ℚ)) : Except PyError Row := do
  let doc ← match fs stat.path with
    | some d => Except.ok d
    | none => Except.error PyError.fileNotFoundError
  let exif ← match doc with
    | .obj o => Except.ok o
    | .arr l => listGet l 0
  let latStr ← match exif.gpsLatitude with
    | some t => Except.ok t
    | none => Except.error PyError.keyError
  let lat ← degree_to_float latStr
  let lonStr ← match exif.gpsLongitude with
    | some t => Except.ok t
    | none => Except.error PyError.keyError
  let lon ← degree_to_float lonStr
  let stat := { stat with latitude := some lat, longitude := some lon }
  match proj_t with
  | some t =>
    return { stat with easting := some (t lat lon).1,
                       northing := some (t lat lon).2 }
  | none => return stat

/-- One iteration of the loop at lines 58–62: normalize the record's stats,
merge them into the record, and, when `--gps` is set, enrich with GPS. -/
def processRecord (args : Args) (fs : String → Option ExifDoc)
    (proj_t : Option (ℚ → ℚ → ℚ × ℚ)) (im_stat : ImStat) :
    Except PyError Row := do
  let st ← normalize_stats im_stat.stats
  let row : Row :=
    { path := im_stat.path, width := some im_stat.width,
      height := some im_stat.height, count := st.count, sum := st.sum,
      sum_2 := st.sum_2, min := st.min, max := st.max, mean := st.mean,
      std_dev := st.std_dev, latitude := none, longitude := none,
      easting := none, northing := none }
  if args.gps then add_gps_coords fs row proj_t else return row

/-- Lines 53–55: `proj_t` is a transformer only when `args.gps and
args.epsg` is truthy (`--epsg 0` is falsy and constructs none).
`fromCrs e` models `Transformer.from_crs(4326, e)`. -/
def projOf (args : Args) (fromCrs : ℤ → ℚ → ℚ → ℚ × ℚ) :
    Option (ℚ → ℚ → ℚ × ℚ) :=
  if args.gps && pyTruthy args.epsg then some (fromCrs (args.epsg.getD 0))
  else none

/-- Lines 64–65: the cumulative record after normalization and
`tot.update(path="cumulative")` — it never has `width`, `height` or any
geolocation key. -/
def cumulativeRow (tot : NormalizedStats) : Row :=
  { path := "cumulative", width := none, height := none,
    count := tot.count, sum := tot.sum, sum_2 := tot.sum_2,
    min := tot.min, max := tot.max, mean := tot.mean,
    std_dev := tot.std_dev, latitude := none, longitude := none,
    easting := none, northing := none }

/-- Lines 53–66: transformer construction, the per-image loop in input
order, and the final cumulative row appended last. -/
def buildRows (args : Args) (fs : String → Option ExifDoc)
    (fromCrs : ℤ → ℚ → ℚ → ℚ × ℚ) (stats_json : StatsJson) :
    Except PyError (List Row) := do
  let df ← stats_json.image_stats.mapM
    (processRecord args fs (projOf args fromCrs))
  let tot ← normalize_stats stats_json.cumulative
  return df ++ [cumulativeRow tot]

/-- Lines 69–73: the mode-dependent column list — the base columns, plus
`latitude`/`longitude` iff `--gps`, plus `easting`/`northing` iff `--epsg`
was given (tested with `is not None`, so `--epsg 0` counts as given). -/
def selectCols (gps : Bool) (epsg : Option ℤ) : List String :=
  let cols := ["path", "width", "height", "min", "max", "mean", "std_dev"]
  if gps then
    let cols := cols ++ ["latitude", "longitude"]
    if epsg.isSome then cols ++ ["easting", "northing"] else cols
  else cols

/-- Whether the row's dict has the key `c`: the always-present keys plus
the optional ones exactly when populated. -/
def Row.hasKey (r : Row) (c : String) : Bool :=
  ["path", "count", "sum", "sum_2", "min", "max", "mean", "std_dev"].contains c
  || (c == "width" && r.width.isSome)
  || (c == "height" && r.height.isSome)
  || (c == "latitude" && r.latitude.isSome)
  || (c == "longitude" && r.longitude.isSome)
  || (c == "easting" && r.easting.isSome)
  || (c == "northing" && r.northing.isSome)

/-- Line 74, `df = df[cols]`: pandas raises `KeyError` when a requested
column exists in no row of the frame; otherwise the selection keeps exactly
the requested columns in order (rows missing one render a missing-value
marker, not an error). -/
def selectColumns (rows : List Row) (cols : List String) :
    Except PyError (List String) :=
  if cols.all (fun c => rows.any (fun r => r.hasKey c)) then .ok cols
  else .error .keyError

/-- Lines 49–75: the whole `main`, from the parsed arguments and the input
JSON document to the selected column list and the ordered rows the CSV is
written from. -/
def main_model (args : Args) (fs : String → Option ExifDoc)
    (fromCrs : ℤ → ℚ → ℚ → ℚ × ℚ) (stats_json : StatsJson) :
    Except PyError (List String × List Row) := do
  let df ← buildRows args fs fromCrs stats_json
  let outCols ← selectColumns df (selectCols args.gps args.epsg)
  return (outCols, df)

/-- The spec's demonstration accumulator: 4 pixels, sum 40, sum of squares
408, min 1, max 19. -/
def demoAcc : Accumulator := ⟨4, 40, 408, 1, 19⟩

/-- `demoAcc` normalized: mean 10, variance 408/4 − 100 = 2, std `√2`. -/
def demoNorm : NormalizedStats := ⟨4, 40, 408, 1, 19, 10, .real 2⟩

def demoIm : ImStat := ⟨"a.jpg", 10, 10, demoAcc⟩

def demoInput : StatsJson := ⟨[demoIm], demoAcc⟩

/-- A filesystem holding one EXIF document, for `a.jpg`. -/
def demoFs : String → Option ExifDoc := fun p =>
  if p = "a.jpg" then some (.obj ⟨some "40°26'46\"N", some "79°58'56\"W"⟩)
  else none

/-- A trivial stand-in transformer factory. -/
def crsZero : ℤ → ℚ → ℚ → ℚ × ℚ := fun _ _ _ => (0, 0)

def demoRow : Row :=
  ⟨"a.jpg", some 10, some 10, 4, 40, 408, 1, 19, 10, .real 2,
   none, none, none, none⟩

def demoRowGeo : Row :=
  { demoRow with latitude := some (72803 / 1800),
                 longitude := some (-(17996 / 225)) }

/-- `normalize_stats` on a nonempty accumulator: both divisions succeed and
produce the mean and the (unclamped) square root of the variance. -/
theorem normalize_stats_pos (st : Accumulator) (h : st.count ≠ 0) :
    normalize_stats st =
      .ok { count := st.count, sum := st.sum, sum_2 := st.sum_2,
            min := st.min, max := st.max,
            mean := st.sum / (st.count : ℚ),
            std_dev := powHalf (st.sum_2 / (st.count : ℚ) -
              st.sum / (st.count : ℚ) * (st.sum / (st.count : ℚ))) } := by
  have h' : ((st.count : ℚ) = 0) = False := by
    simp [Nat.cast_eq_zero, h]
  simp [normalize_stats, pyDiv, h', Bind.bind, Except.instMonad, Except.bind,
    Pure.pure, Except.pure]

/-- `normalize_stats` on an empty accumulator: the first division raises. -/
theorem normalize_stats_zero (st : Accumulator) (h : st.count = 0) :
    normalize_stats st = .error .zeroDivisionError := by
  simp [normalize_stats, pyDiv, h, Bind.bind, Except.instMonad, Except.bind]

theorem listGet_zero {α : Type} (a : α) (l : List α) :
    listGet (a :: l) 0 = .ok a := rfl

theorem listGet_one {α : Type} (a b : α) (l : List α) :
    listGet (a :: b :: l) 1 = .ok b := rfl

theorem listGet_two {α : Type} (a b c : α) (l : List α) :
    listGet (a :: b :: c :: l) 2 = .ok c := rfl

theorem listGet_pair_two {α : Type} (a b : α) :
    listGet [a, b] 2 = .error .indexError := rfl

/-- `degree_to_float` on a string whose split yields at least three
fragments, the first three of which `float` accepts: the sexagesimal
combination, negated exactly when the last character is `S` or `W`. -/
theorem degree_to_float_spec (s : String) (c0 c1 c2 : List Char)
    (rest : List (List Char)) (d m sec : ℚ) (ch : Char)
    (hsplit : pySplit s.toList = c0 :: c1 :: c2 :: rest)
    (h0 : pyFloat c0 = .ok d) (h1 : pyFloat c1 = .ok m)
    (h2 : pyFloat c2 = .ok sec)
    (hlast : s.toList.getLast? = some ch) :
    degree_to_float s =
      .ok (if ch = 'S' ∨ ch = 'W' then -(d + m / 60 + sec / 3600)
           else d + m / 60 + sec / 3600) := by
  simp only [String.toList] at hsplit hlast
  simp [degree_to_float, hsplit, h0, h1, h2, hlast, listGet_zero, listGet_one,
    listGet_two, strLast, Bind.bind, Except.instMonad, Except.bind,
    Pure.pure, Except.pure]

/-- `degree_to_float` on a string whose split yields exactly two fragments
that `float` accepts: indexing fragment 2 raises `IndexError`. -/
theorem degree_to_float_two_fragments (s : String) (c0 c1 : List Char)
    (x y : ℚ) (hsplit : pySplit s.toList = [c0, c1])
    (h0 : pyFloat c0 = .ok x) (h1 : pyFloat c1 = .ok y) :
    degree_to_float s = .error .indexError := by
  simp only [String.toList] at hsplit
  simp [degree_to_float, hsplit, h0, h1, listGet_zero, listGet_one,
    listGet_pair_two, Bind.bind, Except.instMonad, Except.bind]

/-- `add_gps_coords` only ever writes the four geolocation fields: every
other field of the row passes through unchanged. -/
theorem add_gps_coords_frame (fs : String → Option ExifDoc) (stat r : Row)
    (proj_t : Option (ℚ → ℚ → ℚ × ℚ))
    (h : add_gps_coords fs stat proj_t = .ok r) :
    r.path = stat.path ∧ r.width = stat.width ∧ r.height = stat.height ∧
      r.count = stat.count ∧ r.sum = stat.sum ∧ r.sum_2 = stat.sum_2 ∧
      r.min = stat.min ∧ r.max = stat.max ∧ r.mean = stat.mean ∧
      r.std_dev = stat.std_dev := by
  unfold add_gps_coords at h
  simp only [Bind.bind, Except.instMonad, Except.bind, Pure.pure,
    Except.pure] at h
  repeat' split at h
  all_goals cases h
  all_goals simp

/-- Without a transformer, `add_gps_coords` never writes `easting` or
`northing`. -/
theorem add_gps_coords_no_proj (fs : String → Option ExifDoc) (stat r : Row)
    (h : add_gps_coords fs stat none = .ok r) :
    r.easting = stat.easting ∧ r.northing = stat.northing := by
  unfold add_gps_coords at h
  simp only [Bind.bind, Except.instMonad, Except.bind, Pure.pure,
    Except.pure] at h
  repeat' split at h
  all_goals cases h
  all_goals simp

/-- A processed image row keeps the record's path. -/
theorem processRecord_path (args : Args) (fs : String → Option ExifDoc)
    (proj_t : Option (ℚ → ℚ → ℚ × ℚ)) (im : ImStat) (r : Row)
    (h : processRecord args fs proj_t im = .ok r) : r.path = im.path := by
  unfold processRecord at h
  simp only [Bind.bind, Except.instMonad, Except.bind, Pure.pure,
    Except.pure] at h
  cases hn : normalize_stats im.stats with
  | error e => rw [hn] at h; cases h
  | ok st =>
    rw [hn] at h
    by_cases hg : args.gps
    · simp only [hg, if_true] at h
      exact (add_gps_coords_frame _ _ _ _ h).1
    · simp only [hg, if_false] at h
      cases h
      rfl

/-- Without a transformer, a processed image row has no projected fields. -/
theorem processRecord_no_proj (args : Args) (fs : String → Option ExifDoc)
    (im : ImStat) (r : Row)
    (h : processRecord args fs none im = .ok r) :
    r.easting = none ∧ r.northing = none := by
  unfold processRecord at h
  simp only [Bind.bind, Except.instMonad, Except.bind, Pure.pure,
    Except.pure] at h
  cases hn : normalize_stats im.stats with
  | error e => rw [hn] at h; cases h
  | ok st =>
    rw [hn] at h
    by_cases hg : args.gps
    · simp only [hg, if_true] at h
      exact add_gps_coords_no_proj _ _ _ h
    · simp only [hg, if_false] at h
      cases h
      exact ⟨rfl, rfl⟩

/-- A property `P` that holds of every successful output of `f` holds of
every row a successful `mapM f` produced. -/
theorem mapM_mem {α : Type} (f : α → Except PyError Row) (P : Row → Prop)
    (hf : ∀ a r, f a = .ok r → P r) :
    ∀ (l : List α) (rows : List Row), l.mapM f = .ok rows →
      ∀ r ∈ rows, P r := by
  intro l
  induction l with
  | nil =>
    intro rows h
    simp only [List.mapM_nil, Pure.pure, Except.pure] at h
    cases h
    intro r hr
    cases hr
  | cons a l ih =>
    intro rows h
    rw [List.mapM_cons] at h
    simp only [Bind.bind, Except.instMonad, Except.bind, Pure.pure,
      Except.pure] at h
    cases ha : f a with
    | error e => rw [ha] at h; cases h
    | ok r0 =>
      rw [ha] at h
      cases hl : l.mapM f with
      | error e => rw [hl] at h; cases h
      | ok rs =>
        rw [hl] at h
        cases h
        intro r hr
        rcases List.mem_cons.mp hr with h1 | h2
        · exact h1 ▸ hf a r0 ha
        · exact ih rs hl r h2

/-- Rows produced by mapping `processRecord` list the input paths in input
order. -/
theorem mapM_paths (args : Args) (fs : String → Option ExifDoc)
    (proj_t : Option (ℚ → ℚ → ℚ × ℚ)) :
    ∀ (l : List ImStat) (rows : List Row),
      l.mapM (processRecord args fs proj_t) = .ok rows →
      rows.map Row.path = l.map ImStat.path := by
  intro l
  induction l with
  | nil =>
    intro rows h
    simp only [List.mapM_nil, Pure.pure, Except.pure] at h
    cases h
    rfl
  | cons a l ih =>
    intro rows h
    rw [List.mapM_cons] at h
    simp only [Bind.bind, Except.instMonad, Except.bind, Pure.pure,
      Except.pure] at h
    cases ha : processRecord args fs proj_t a with
    | error e => rw [ha] at h; cases h
    | ok r0 =>
      rw [ha] at h
      cases hl : l.mapM (processRecord args fs proj_t) with
      | error e => rw [hl] at h; cases h
      | ok rs =>
        rw [hl] at h
        cases h
        simp [processRecord_path _ _ _ _ _ ha, ih rs hl]

/-- Decomposition of a successful `buildRows` run. -/
theorem buildRows_ok (args : Args) (fs : String → Option ExifDoc)
    (fromCrs : ℤ → ℚ → ℚ → ℚ × ℚ) (input : StatsJson) (rows : List Row)
    (h : buildRows args fs fromCrs input = .ok rows) :
    ∃ df tot,
      input.image_stats.mapM (processRecord args fs (projOf args fromCrs))
        = .ok df ∧
      normalize_stats input.cumulative = .ok tot ∧
      rows = df ++ [cumulativeRow tot] := by
  unfold buildRows at h
  simp only [Bind.bind, Except.instMonad, Except.bind, Pure.pure,
    Except.pure] at h
  cases hm : input.image_stats.mapM
      (processRecord args fs (projOf args fromCrs)) with
  | error e => rw [hm] at h; cases h
  | ok df =>
    rw [hm] at h
    cases hn : normalize_stats input.cumulative with
    | error e => rw [hn] at h; cases h
    | ok tot =>
      rw [hn] at h
      cases h
      exact ⟨df, tot, rfl, rfl, rfl⟩

theorem except_bind_ok {α β : Type} (a : α) (f : α → Except PyError β) :
    (Except.ok a >>= f) = f a := rfl

theorem except_bind_error {α β : Type} (e : PyError)
    (f : α → Except PyError β) :
    ((Except.error e : Except PyError α) >>= f) = .error e := rfl

/-- Decomposition of a successful `main_model` run: the rows are the built
rows and the output columns are exactly the mode-selected ones. -/
theorem main_model_ok (args : Args) (fs : String → Option ExifDoc)
    (fromCrs : ℤ → ℚ → ℚ → ℚ × ℚ) (input : StatsJson)
    (out : List String × List Row)
    (h : main_model args fs fromCrs input = .ok out) :
    buildRows args fs fromCrs input = .ok out.2 ∧
      out.1 = selectCols args.gps args.epsg := by
  unfold main_model at h
  cases hb : buildRows args fs fromCrs input with
  | error e => rw [hb] at h; simp only [except_bind_error] at h; cases h
  | ok rows =>
    rw [hb] at h
    simp only [except_bind_ok] at h
    cases hc : selectColumns rows (selectCols args.gps args.epsg) with
    | error e => rw [hc] at h; simp only [except_bind_error] at h; cases h
    | ok oc =>
      rw [hc] at h
      simp only [except_bind_ok, Pure.pure, Except.pure] at h
      cases h
      have hoc : oc = selectCols args.gps args.epsg := by
        unfold selectColumns at hc
        split at hc
        · cases hc; rfl
        · cases hc
      exact ⟨rfl, hoc⟩

theorem demoAcc_norm : normalize_stats demoAcc = .ok demoNorm := by
  rw [normalize_stats_pos _ (by decide)]
  have harg : (demoAcc.sum_2 / (demoAcc.count : ℚ) -
      demoAcc.sum / (demoAcc.count : ℚ) *
        (demoAcc.sum / (demoAcc.count : ℚ))) = 2 := by
    norm_num [demoAcc]
  rw [harg, powHalf, if_pos (by norm_num)]
  norm_num [demoAcc, demoNorm]

theorem demo_lat : degree_to_float "40°26'46\"N" = .ok (72803 / 1800) := by
  rw [degree_to_float_spec "40°26'46\"N" ['4','0'] ['2','6'] ['4','6'] [[]]
    40 26 46 'N' (by decide) (by decide) (by decide) (by decide) (by decide)]
  rw [if_neg (by decide)]
  norm_num

theorem demo_lon : degree_to_float "79°58'56\"W" = .ok (-(17996 / 225)) := by
  rw [degree_to_float_spec "79°58'56\"W" ['7','9'] ['5','8'] ['5','6'] [[]]
    79 58 56 'W' (by decide) (by decide) (by decide) (by decide) (by decide)]
  rw [if_pos (by decide)]
  norm_num

theorem demo_addgps : add_gps_coords demoFs demoRow none = .ok demoRowGeo := by
  unfold add_gps_coords
  have hfs : demoFs demoRow.path =
      some (.obj ⟨some "40°26'46\"N", some "79°58'56\"W"⟩) := by decide
  rw [hfs]
  simp only [except_bind_ok, demo_lat, demo_lon, Pure.pure, Except.pure]
  rfl

theorem demo_process_gps :
    processRecord ⟨true, some 0⟩ demoFs none demoIm = .ok demoRowGeo := by
  unfold processRecord
  rw [show demoIm.stats = demoAcc from rfl, demoAcc_norm]
  simp only [except_bind_ok]
  exact demo_addgps

theorem demo_process_plain (epsg : Option ℤ)
    (proj_t : Option (ℚ → ℚ → ℚ × ℚ)) (fs : String → Option ExifDoc) :
    processRecord ⟨false, epsg⟩ fs proj_t demoIm = .ok demoRow := by
  unfold processRecord
  rw [show demoIm.stats = demoAcc from rfl, demoAcc_norm]
  simp only [except_bind_ok]
  rfl

theorem demo_build_gps :
    buildRows ⟨true, some 0⟩ demoFs crsZero demoInput =
      .ok [demoRowGeo, cumulativeRow demoNorm] := by
  unfold buildRows
  have hproj : projOf ⟨true, some 0⟩ crsZero = none := rfl
  rw [hproj]
  rw [show demoInput.image_stats = [demoIm] from rfl]
  rw [List.mapM_cons, List.mapM_nil]
  simp only [demo_process_gps, except_bind_ok, Pure.pure, Except.pure]
  rw [show demoInput.cumulative = demoAcc from rfl, demoAcc_norm]
  rfl

theorem demo_build_plain (epsg : Option ℤ) (fs : String → Option ExifDoc)
    (fromCrs : ℤ → ℚ → ℚ → ℚ × ℚ) :
    buildRows ⟨false, epsg⟩ fs fromCrs demoInput =
      .ok [demoRow, cumulativeRow demoNorm] := by
  unfold buildRows
  have hproj : projOf ⟨false, epsg⟩ fromCrs = none := rfl
  rw [hproj]
  rw [show demoInput.image_stats = [demoIm] from rfl]
  rw [List.mapM_cons, List.mapM_nil]
  simp only [demo_process_plain, except_bind_ok, Pure.pure, Except.pure]
  rw [show demoInput.cumulative = demoAcc from rfl, demoAcc_norm]
  rfl

theorem demo_main_plain (epsg : Option ℤ) (fs : String → Option ExifDoc)
    (fromCrs : ℤ → ℚ → ℚ → ℚ × ℚ) :
    main_model ⟨false, epsg⟩ fs fromCrs demoInput =
      .ok (["path", "width", "height", "min", "max", "mean", "std_dev"],
           [demoRow, cumulativeRow demoNorm]) := by
  unfold main_model
  rw [demo_build_plain]
  simp only [except_bind_ok]
  have hsel : selectColumns [demoRow, cumulativeRow demoNorm]
      (selectCols false epsg) =
      .ok ["path", "width", "height", "min", "max", "mean", "std_dev"] := by
    rw [show selectCols false epsg =
      ["path", "width", "height", "min", "max", "mean", "std_dev"] from rfl]
    decide
  rw [hsel]
  rfl

theorem pyFloat_nil : pyFloat [] = .error .valueError := rfl

theorem hasKey_easting (r : Row) : r.hasKey "easting" = r.easting.isSome := by
  simp [Row.hasKey]

/-- `df[cols]` fails with `KeyError` when `easting` is requested but absent
from every row. -/
theorem selectColumns_missing_easting (rows : List Row)
    (hno : ∀ r ∈ rows, r.easting = none) (cols : List String)
    (hmem : "easting" ∈ cols) :
    selectColumns rows cols = .error .keyError := by
  unfold selectColumns
  rw [if_neg]
  intro hall
  rw [List.all_eq_true] at hall
  have h1 := hall _ hmem
  rw [List.any_eq_true] at h1
  obtain ⟨r, hr, hk⟩ := h1
  rw [hasKey_easting, hno r hr] at hk
  cases hk

/-- C1: the claim states `normalize` computes `std_dev` as
`sqrt(max(variance, 0))`, always `≥ 0` and never NaN, even for a slightly
negative variance.  The source (line 26, `std = var ** 0.5`) applies no
clamp: at the accumulator `{count := 2, sum := 2, sum_2 := 1.99}` the
variance is `-1/200`, the Python result is a complex number — not a
nonnegative real, and not the clamped `sqrt(max(var, 0)) = 0` the claim
requires. -/
theorem C1_std_dev_clamp_missing :
    (normalize_stats ⟨2, 2, 199/100, 0, 2⟩).map NormalizedStats.std_dev =
      .ok (StdRes.complex (-(1/200))) ∧
    StdRes.isNonnegReal (StdRes.complex (-(1/200))) = false ∧
    StdRes.value (StdRes.complex (-(1/200))) = none ∧
    powHalf (max (-(1/200)) 0) = StdRes.real 0 := by
  refine ⟨?_, rfl, rfl, ?_⟩
  · rw [normalize_stats_pos _ (by decide)]
    simp only [Except.map]
    have hX : ((⟨2, 2, 199/100, 0, 2⟩ : Accumulator).sum_2 /
        ((⟨2, 2, 199/100, 0, 2⟩ : Accumulator).count : ℚ) -
        (⟨2, 2, 199/100, 0, 2⟩ : Accumulator).sum /
          ((⟨2, 2, 199/100, 0, 2⟩ : Accumulator).count : ℚ) *
          ((⟨2, 2, 199/100, 0, 2⟩ : Accumulator).sum /
            ((⟨2, 2, 199/100, 0, 2⟩ : Accumulator).count : ℚ))) =
        -(1/200) := by
      norm_num
    rw [hX, powHalf, if_neg (by norm_num)]
  · rw [show max (-(1/200)) (0:ℚ) = 0 from by norm_num, powHalf,
      if_pos le_rfl]

/-- C8: for every accumulator with `count ≥ 1` the mean is exactly
`sum / count`, and the spec's demonstration accumulator (count 4, sum 40,
sum of squares 408) yields mean 10 and `std_dev = √2` (variance
408/4 − 100 = 2). -/
theorem C8_mean_exact_and_demo :
    (∀ (acc : Accumulator), 1 ≤ acc.count → ∀ st : NormalizedStats,
      normalize_stats acc = .ok st → st.mean = acc.sum / (acc.count : ℚ)) ∧
    (normalize_stats demoAcc).map NormalizedStats.mean = .ok 10 ∧
    (normalize_stats demoAcc).map NormalizedStats.std_dev =
      .ok (StdRes.real 2) ∧
    StdRes.value (StdRes.real 2) = some (Real.sqrt 2) := by
  refine ⟨?_, ?_, ?_, rfl⟩
  · intro acc hc st hst
    rw [normalize_stats_pos acc (by omega)] at hst
    cases hst
    rfl
  · rw [demoAcc_norm]; rfl
  · rw [demoAcc_norm]; rfl

/-- C9: normalizing an accumulator with `count = 0` fails with the
division-by-zero error (Python's `ZeroDivisionError`, an
`ArithmeticError`); the function has no guard — the failure comes from
`sum / count` itself. -/
theorem C8_witness : demoNorm.mean = demoAcc.sum / (demoAcc.count : ℚ) :=
  C8_mean_exact_and_demo.1 demoAcc (by decide) demoNorm demoAcc_norm

theorem C9_count_zero_divide (acc : Accumulator) (h : acc.count = 0) :
    normalize_stats acc = .error .zeroDivisionError :=
  normalize_stats_zero acc h

theorem C9_witness :
    normalize_stats ⟨0, 40, 408, 1, 19⟩ = .error .zeroDivisionError :=
  C9_count_zero_divide ⟨0, 40, 408, 1, 19⟩ rfl

/-- C10: for `count ≥ 1`, `normalize_stats` passes `count`, `sum`, `sum_2`,
`min` and `max` through unchanged; the output type shows its only additions
are the derived `mean` and `std_dev` fields. -/
theorem C10_normalize_frame (acc : Accumulator) (st : NormalizedStats)
    (h1 : 1 ≤ acc.count) (h2 : normalize_stats acc = .ok st) :
    st.count = acc.count ∧ st.sum = acc.sum ∧ st.sum_2 = acc.sum_2 ∧
      st.min = acc.min ∧ st.max = acc.max := by
  rw [normalize_stats_pos acc (by omega)] at h2
  cases h2
  exact ⟨rfl, rfl, rfl, rfl, rfl⟩

theorem C10_witness :
    demoNorm.count = demoAcc.count ∧ demoNorm.sum = demoAcc.sum ∧
      demoNorm.sum_2 = demoAcc.sum_2 ∧ demoNorm.min = demoAcc.min ∧
      demoNorm.max = demoAcc.max :=
  C10_normalize_frame demoAcc demoNorm (by decide) demoAcc_norm

/-- C4: for well-formed sexagesimal strings the result is
`D + M/60 + S/3600`, negated exactly when the literal last character of the
string is `S` or `W`; the two spec examples evaluate to `72803/1800 ≈
40.446111` and `-17996/225 ≈ -79.982222`. -/
theorem C4_parse_degrees :
    (∀ (s : String) (c0 c1 c2 : List Char) (rest : List (List Char))
        (d m sec : ℚ) (ch : Char),
      pySplit s.toList = c0 :: c1 :: c2 :: rest →
      pyFloat c0 = .ok d → pyFloat c1 = .ok m → pyFloat c2 = .ok sec →
      s.toList.getLast? = some ch →
      degree_to_float s =
        .ok (if ch = 'S' ∨ ch = 'W' then -(d + m / 60 + sec / 3600)
             else d + m / 60 + sec / 3600)) ∧
    degree_to_float "40°26'46\"N" = .ok (72803 / 1800) ∧
    degree_to_float "79°58'56\"W" = .ok (-(17996 / 225)) ∧
    |(72803 : ℚ) / 1800 - 40.446111| < 1 / 1000000 ∧
    |(-(17996 : ℚ) / 225) - (-79.982222)| < 1 / 1000000 :=
  ⟨degree_to_float_spec, demo_lat, demo_lon,
   by rw [abs_sub_lt_iff]; constructor <;> norm_num,
   by rw [abs_sub_lt_iff]; constructor <;> norm_num⟩

theorem C4_witness : degree_to_float "1°2'3\"S" =
    .ok (-((1 : ℚ) + 2 / 60 + 3 / 3600)) := by
  rw [C4_parse_degrees.1 "1°2'3\"S" ['1'] ['2'] ['3'] [[]] 1 2 3 'S'
    (by decide) (by decide) (by decide) (by decide) (by decide)]
  rw [if_pos (by decide)]

/-- C3 counterexample: `re.split` keeps empty fragments, so the sexagesimal
string `"40°26'N"` (no seconds component, two numeric components) splits
into three fragments with an empty third, and `float('')` raises
`ValueError` — not the `IndexError` the claim asserts for every input with
fewer than three numeric components. -/
theorem C3_counterexample :
    pySplit "40°26'N".toList = [['4','0'], ['2','6'], []] ∧
    degree_to_float "40°26'N" = .error .valueError ∧
    PyError.valueError ≠ PyError.indexError := by
  exact ⟨by decide, by decide, by decide⟩

/-- C3 (amended): the split keeps empty boundary fragments (it does not
discard them).  When it yields exactly two fragments that `float` accepts,
indexing the missing third raises `IndexError`; but a string whose third
fragment is empty (seconds missing, trailing separator) fails in
`float('')` with `ValueError` instead. -/
theorem C3_amended_split_errors :
    (∀ (s : String) (c0 c1 : List Char) (x y : ℚ),
      pySplit s.toList = [c0, c1] →
      pyFloat c0 = .ok x → pyFloat c1 = .ok y →
      degree_to_float s = .error .indexError) ∧
    (∀ (s : String) (c0 c1 : List Char) (rest : List (List Char)) (x y : ℚ),
      pySplit s.toList = c0 :: c1 :: [] :: rest →
      pyFloat c0 = .ok x → pyFloat c1 = .ok y →
      degree_to_float s = .error .valueError) := by
  constructor
  · exact degree_to_float_two_fragments
  · intro s c0 c1 rest x y hsplit h0 h1
    simp only [String.toList] at hsplit
    simp [degree_to_float, hsplit, h0, h1, pyFloat_nil, listGet_zero,
      listGet_one, listGet_two, Bind.bind, Except.instMonad, Except.bind]

theorem C3_witness : degree_to_float "40°26" = .error .indexError := by
  rw [C3_amended_split_errors.1 "40°26" ['4','0'] ['2','6'] 40 26
    (by decide) (by decide) (by decide)]

/-- C2 counterexample: with a target system (`--epsg 32633`) but without
geolocation, the run is NOT rejected — it completes and produces the base
report, silently ignoring the target system. -/
theorem C2_counterexample :
    main_model ⟨false, some 32633⟩ demoFs crsZero demoInput =
      .ok (["path", "width", "height", "min", "max", "mean", "std_dev"],
           [demoRow, cumulativeRow demoNorm]) :=
  demo_main_plain (some 32633) demoFs crsZero

/-- C2 (amended): a target system requested without geolocation is silently
ignored: the run proceeds and behaves exactly as if no target system had
been given.  No configuration-time validation exists. -/
theorem C2_epsg_ignored_without_gps (epsg : Option ℤ)
    (fs : String → Option ExifDoc) (fromCrs : ℤ → ℚ → ℚ → ℚ × ℚ)
    (input : StatsJson) :
    main_model ⟨false, epsg⟩ fs fromCrs input =
      main_model ⟨false, none⟩ fs fromCrs input := rfl

/-- C5: the selected column set is exactly the base seven columns when
geolocation is off (whatever `--epsg` says), plus latitude/longitude when
on, plus easting/northing when a target system is also given; and every
successful run's output columns are exactly this selection. -/
theorem C5_column_sets :
    (∀ epsg : Option ℤ, selectCols false epsg =
      ["path", "width", "height", "min", "max", "mean", "std_dev"]) ∧
    selectCols true none =
      ["path", "width", "height", "min", "max", "mean", "std_dev",
       "latitude", "longitude"] ∧
    (∀ e : ℤ, selectCols true (some e) =
      ["path", "width", "height", "min", "max", "mean", "std_dev",
       "latitude", "longitude", "easting", "northing"]) ∧
    (∀ (args : Args) (fs : String → Option ExifDoc)
        (fromCrs : ℤ → ℚ → ℚ → ℚ × ℚ) (input : StatsJson)
        (out : List String × List Row),
      main_model args fs fromCrs input = .ok out →
      out.1 = selectCols args.gps args.epsg) := by
  refine ⟨fun _ => rfl, rfl, fun _ => rfl, ?_⟩
  intro args fs fromCrs input out h
  exact (main_model_ok args fs fromCrs input out h).2

/-- C6: a successful run over `n` image records outputs exactly `n + 1`
rows; the image rows keep the input order of paths; the last row is always
the cumulative one, tagged `path = "cumulative"`, with every geolocation
and projected field absent. -/
theorem C5_witness :
    ((["path", "width", "height", "min", "max", "mean", "std_dev"],
      [demoRow, cumulativeRow demoNorm]) : List String × List Row).1 =
      selectCols false none :=
  C5_column_sets.2.2.2 ⟨false, none⟩ demoFs crsZero demoInput
    (["path", "width", "height", "min", "max", "mean", "std_dev"],
     [demoRow, cumulativeRow demoNorm])
    (demo_main_plain none demoFs crsZero)

theorem C6_row_structure (args : Args) (fs : String → Option ExifDoc)
    (fromCrs : ℤ → ℚ → ℚ → ℚ × ℚ) (input : StatsJson)
    (out : List String × List Row)
    (h : main_model args fs fromCrs input = .ok out) :
    out.2.length = input.image_stats.length + 1 ∧
    out.2.map Row.path = input.image_stats.map ImStat.path ++
      ["cumulative"] ∧
    ∃ r : Row, out.2.getLast? = some r ∧ r.path = "cumulative" ∧
      r.latitude = none ∧ r.longitude = none ∧ r.easting = none ∧
      r.northing = none := by
  obtain ⟨hb, -⟩ := main_model_ok args fs fromCrs input out h
  obtain ⟨df, tot, hm, hn, hrows⟩ := buildRows_ok args fs fromCrs input
    out.2 hb
  have hpaths := mapM_paths args fs (projOf args fromCrs)
    input.image_stats df hm
  have hlen : df.length = input.image_stats.length := by
    have h2 := congrArg List.length hpaths
    simpa using h2
  refine ⟨?_, ?_, cumulativeRow tot, ?_, rfl, rfl, rfl, rfl, rfl⟩
  · rw [hrows]; simp [hlen]
  · rw [hrows]; simp [hpaths, cumulativeRow]
  · rw [hrows]; simp

theorem C6_witness :
    ([demoRow, cumulativeRow demoNorm] : List Row).length =
      demoInput.image_stats.length + 1 ∧
    ([demoRow, cumulativeRow demoNorm] : List Row).map Row.path =
      demoInput.image_stats.map ImStat.path ++ ["cumulative"] ∧
    ∃ r : Row,
      ([demoRow, cumulativeRow demoNorm] : List Row).getLast? = some r ∧
      r.path = "cumulative" ∧ r.latitude = none ∧ r.longitude = none ∧
      r.easting = none ∧ r.northing = none :=
  C6_row_structure ⟨false, none⟩ demoFs crsZero demoInput
    (["path", "width", "height", "min", "max", "mean", "std_dev"],
     [demoRow, cumulativeRow demoNorm])
    (demo_main_plain none demoFs crsZero)

/-- C7: with geolocation on and the target system `0` (falsy but not
`None`), no transformer is constructed, no row ever gets easting/northing,
yet the column selection still demands them, so the run fails with
`KeyError` at the column-selection step instead of producing a report. -/
theorem C7_epsg_zero (fs : String → Option ExifDoc)
    (fromCrs : ℤ → ℚ → ℚ → ℚ × ℚ) (input : StatsJson) (rows : List Row)
    (h : buildRows ⟨true, some 0⟩ fs fromCrs input = .ok rows) :
    projOf ⟨true, some 0⟩ fromCrs = none ∧
    (∀ r ∈ rows, r.easting = none ∧ r.northing = none) ∧
    selectCols true (some 0) =
      ["path", "width", "height", "min", "max", "mean", "std_dev",
       "latitude", "longitude", "easting", "northing"] ∧
    main_model ⟨true, some 0⟩ fs fromCrs input = .error .keyError := by
  obtain ⟨df, tot, hm, hn, hrows⟩ := buildRows_ok _ _ _ _ _ h
  have hproj : projOf (⟨true, some 0⟩ : Args) fromCrs = none := rfl
  rw [hproj] at hm
  have hmem : ∀ r ∈ rows, r.easting = none ∧ r.northing = none := by
    intro r hr
    rw [hrows] at hr
    rcases List.mem_append.mp hr with h1 | h2
    · exact mapM_mem _ _ (fun a r0 ha => processRecord_no_proj _ _ _ _ ha)
        _ _ hm r h1
    · rcases List.mem_singleton.mp h2 with rfl
      exact ⟨rfl, rfl⟩
  refine ⟨hproj, hmem, rfl, ?_⟩
  have hsel := selectColumns_missing_easting rows
    (fun r hr => (hmem r hr).1) (selectCols true (some 0)) (by decide)
  unfold main_model
  rw [h, except_bind_ok]
  simp only [hsel, except_bind_error]

theorem C7_witness :
    projOf ⟨true, some 0⟩ crsZero = none ∧
    (∀ r ∈ ([demoRowGeo, cumulativeRow demoNorm] : List Row),
      r.easting = none ∧ r.northing = none) ∧
    selectCols true (some 0) =
      ["path", "width", "height", "min", "max", "mean", "std_dev",
       "latitude", "longitude", "easting", "northing"] ∧
    main_model ⟨true, some 0⟩ demoFs crsZero demoInput =
      .error .keyError :=
  C7_epsg_zero demoFs crsZero demoInput [demoRowGeo, cumulativeRow demoNorm]
    demo_build_gps


end ThermalStats

